import Mathlib

/-!
Verification of the Publo orchestrator core: a shallow embedding of the
pattern-based intent classifier (orchestrator/intent/classifier.py), the
deep analyzer response handling (orchestrator/intent/deep_analyzer.py),
the LangGraph nodes and routers (graph/nodes.py, graph/workflow.py), the
per-field state reducers (graph/state.py) and the writer/critic agents
(graph/agents/writer.py, graph/agents/critic.py), together with theorems
settling the behavioural claims about them.

Python floats are modelled as rationals; all thresholds in the code are
short decimals whose order is the same in both number systems.  Regular
expressions in the source are alternations of literals with optional
word boundaries, anchors and two-literal `A.*B` sequencing, and are
modelled by executable search functions over lowered character lists
(the patterns carry re.IGNORECASE).  External LLM calls are modelled as
oracle parameters; `json.loads` is modelled as an arbitrary function
parameter of type `List Char → Option Json`.
-/

namespace Publo

/-- JSON values, the result type of `json.loads`. -/
inductive Json where
  | null
  | bool (b : Bool)
  | num (q : ℚ)
  | str (s : String)
  | arr (xs : List Json)
  | obj (kvs : List (String × Json))

/-- Python word character for the regex `\b` boundary (ASCII `\w`). -/
def isWordChar (c : Char) : Bool := c.isAlphanum || c == '_'

/-- The literal `lit` occurs in `s` at position `i`. -/
def litAt (lit s : List Char) (i : Nat) : Bool := lit.isPrefixOf (s.drop i)

/-- Unanchored search for one literal (Python `pattern.search`). -/
def searchLit (lit s : List Char) : Bool :=
  (List.range (s.length + 1)).any (fun i => litAt lit s i)

/-- Search for any of a list of literal alternatives. -/
def searchAny (lits : List String) (s : List Char) : Bool :=
  lits.any (fun l => searchLit l.toList s)

/-- There is a `\b` boundary just before position `i` of `s` (for a
literal starting with a word character). -/
def boundaryBefore (s : List Char) (i : Nat) : Bool :=
  i == 0 || !(isWordChar (s.getD (i - 1) ' '))

/-- There is a `\b` boundary just after position `j - 1` (for a literal
ending with a word character that ends at `j`). -/
def boundaryAfter (s : List Char) (j : Nat) : Bool :=
  decide (s.length ≤ j) || !(isWordChar (s.getD j ' '))

/-- Search for a literal delimited by `\b` on both sides. -/
def searchLitB (lit s : List Char) : Bool :=
  (List.range (s.length + 1)).any (fun i =>
    litAt lit s i && boundaryBefore s i && boundaryAfter s (i + lit.length))

/-- Search for any of the alternatives, each surrounded by `\b`. -/
def searchAnyB (lits : List String) (s : List Char) : Bool :=
  lits.any (fun l => searchLitB l.toList s)

/-- Anchored match `^(alt1|alt2|...)\b` at the start of the string. -/
def startsWithAnyB (lits : List String) (s : List Char) : Bool :=
  lits.any (fun l => l.toList.isPrefixOf s && boundaryAfter s l.toList.length)

/-- The regex `\?$`: a question mark at the end of the string, or just
before a final newline (Python `$` semantics). -/
def endsWithQuestionMark (s : List Char) : Bool :=
  match s.reverse with
  | '?' :: _ => true
  | '\n' :: '?' :: _ => true
  | _ => false

/-- No newline among positions `[e, j)` of `s` (the span the non-DOTALL
`.*` has to cross). -/
def noNewlineBetween (s : List Char) (e j : Nat) : Bool :=
  ((s.drop e).take (j - e)).all (fun c => !(c == '\n'))

/-- Search for `first.*second` (with `.` not matching a newline); when
`withB` is set the first literal is delimited by `\b` on both sides. -/
def searchSeq (withB : Bool) (firsts seconds : List String) (s : List Char) : Bool :=
  (List.range (s.length + 1)).any (fun i =>
    firsts.any (fun a =>
      let al := a.toList
      litAt al s i &&
      (!withB || (boundaryBefore s i && boundaryAfter s (i + al.length))) &&
      (List.range (s.length + 1)).any (fun j =>
        decide (i + al.length ≤ j) && noNewlineBetween s (i + al.length) j &&
        seconds.any (fun b => litAt b.toList s j))))

/-- Message lowered to a character list; models matching under
re.IGNORECASE (ASCII case folding, as in all witness inputs). -/
def lowerChars (s : String) : List Char := s.toList.map Char.toLower

/-! SIMPLE_PATTERNS, STRUCTURE_PATTERNS and COMPLEX_PATTERNS from
classifier.py, one search function per pattern group. -/

/-- SIMPLE_PATTERNS navigate: `go to|jump to|navigate to|take me to|show me|find the`. -/
def navigateMatch (s : List Char) : Bool :=
  searchAny ["go to", "jump to", "navigate to", "take me to", "show me", "find the"] s

/-- SIMPLE_PATTERNS write: `\b(write|expand|continue|generate|create content|fill in|draft)\b`. -/
def writeMatch (s : List Char) : Bool :=
  searchAnyB ["write", "expand", "continue", "generate", "create content", "fill in", "draft"] s

/-- SIMPLE_PATTERNS rewriteCoherence, first regex:
`(rewrite|update|change).*(coherent|consistent|flow|match)`. -/
def rewriteCo1Match (s : List Char) : Bool :=
  searchSeq false ["rewrite", "update", "change"] ["coherent", "consistent", "flow", "match"] s

/-- SIMPLE_PATTERNS rewriteCoherence, second regex:
`make (it |this |them )?(all )?(coherent|consistent|flow)`, expanded to
its finitely many literal alternatives. -/
def rewriteCo2Match (s : List Char) : Bool :=
  ["", "it ", "this ", "them "].any (fun o1 =>
    ["", "all "].any (fun o2 =>
      ["coherent", "consistent", "flow"].any (fun w =>
        searchLit ("make " ++ o1 ++ o2 ++ w).toList s)))

/-- SIMPLE_PATTERNS rewriteCoherence: either of its two regexes. -/
def rewriteCoMatch (s : List Char) : Bool := rewriteCo1Match s || rewriteCo2Match s

/-- SIMPLE_PATTERNS improve: `\b(improve|enhance|refine|polish|make (it )?better|fix)\b`. -/
def improveMatch (s : List Char) : Bool :=
  searchAnyB ["improve", "enhance", "refine", "polish", "make better", "make it better", "fix"] s

/-- SIMPLE_PATTERNS delete: `\b(delete|remove|discard|trash|get rid of)\b`. -/
def deleteMatch (s : List Char) : Bool :=
  searchAnyB ["delete", "remove", "discard", "trash", "get rid of"] s

/-- SIMPLE_PATTERNS answer: `^(what|who|where|when|why|how|can you|could you|tell me|explain)\b`
or `\?$`. -/
def answerMatch (s : List Char) : Bool :=
  startsWithAnyB
    ["what", "who", "where", "when", "why", "how", "can you", "could you", "tell me", "explain"] s
  || endsWithQuestionMark s

/-- SIMPLE_PATTERNS openAndWrite: `(write|expand|continue).*(in|for|on) (the |my )?`;
the trailing optional group can match the empty string, so a match
exists exactly when `(write|expand|continue).*(in |for |on )` matches. -/
def openAndWriteMatch (s : List Char) : Bool :=
  searchSeq false ["write", "expand", "continue"] ["in ", "for ", "on "] s

/-- SIMPLE_PATTERNS modifyStructure: `(add|insert|move|reorder|reorganize|restructure)`
or `(new|another) (chapter|scene|act|section|part)`. -/
def modifyStructureMatch (s : List Char) : Bool :=
  searchAny ["add", "insert", "move", "reorder", "reorganize", "restructure"] s
  || (["new", "another"].any (fun a =>
        ["chapter", "scene", "act", "section", "part"].any (fun b =>
          searchLit (a ++ " " ++ b).toList s)))

/-- STRUCTURE_PATTERNS, three regexes: a `\b`-delimited creation verb
followed by a format word, a `\b`-delimited format word followed by
`about|on|regarding`, or an anchored `^(a |the )?(new )?` + format word. -/
def structureMatch (s : List Char) : Bool :=
  searchSeq true ["create", "start", "begin", "make", "build", "write"]
    ["novel", "story", "book", "screenplay", "script", "podcast", "report"] s
  || searchSeq true ["novel", "story", "book", "screenplay", "script", "podcast", "report"]
       ["about", "on", "regarding"] s
  || (["", "a ", "the "].any (fun p1 =>
        ["", "new "].any (fun p2 =>
          ["novel", "story", "book", "screenplay", "script", "podcast", "report"].any (fun w =>
            ((p1 ++ p2 ++ w).toList).isPrefixOf s))))

/-- COMPLEX_PATTERNS: comparative, adversative or conditional language. -/
def complexMatch (s : List Char) : Bool :=
  searchAny ["like", "similar to", "based on", "inspired by"] s
  || searchAny ["but", "however", "although", "except"] s
  || searchAny ["if", "when", "unless", "until"] s

/-! Data model: intent analysis result and pipeline context
(orchestrator/intent/types.py). -/

/-- IntentAnalysis (types.py): the result of intent classification.
`extractedEntities` is a JSON object, modelled as a key/value list. -/
structure IntentAnalysis where
  intent : String
  confidence : ℚ
  reasoning : String
  suggestedAction : String
  requiresContext : Bool := false
  suggestedModel : String := "orchestrator"
  needsClarification : Bool := false
  clarifyingQuestion : Option String := none
  extractedEntities : List (String × Json) := []
  usedLLM : Bool := false

/-- The active segment dict `\x7bid, name, level, content?\x7d`; a field is
`none` when the key is absent. -/
structure Segment where
  id : Option String := none
  name : Option String := none
  level : Option Int := none
  content : Option String := none

/-- PipelineContext (types.py): snapshot handed to the classifier. -/
structure PipelineContext where
  message : String := ""
  activeSegment : Option Segment := none
  documentPanelOpen : Bool := false
  documentFormat : Option String := none
  canvasContext : Option (List (String × Json)) := none
  conversationHistory : List (String × String) := []

/-- Python `x or default` for an optional string: `None` and the empty
string are falsy. -/
def pyOrStr (x : Option String) (dflt : String) : String :=
  match x with
  | none => dflt
  | some s => if s == "" then dflt else s

/-- Python truthiness of the optional canvas-context dict: present and
non-empty. -/
def canvasTruthy (c : Option (List (String × Json))) : Bool :=
  match c with
  | none => false
  | some l => !l.isEmpty

/-- classify_with_patterns (classifier.py): ordered priority tiers; each
regex search runs under re.IGNORECASE, modelled by searching the lowered
message.  The computed-but-unused `normalized` variable of the source is
omitted; the searches of the source run on the raw `message`. -/
def classify_with_patterns (message : String) (context : PipelineContext) : Option IntentAnalysis :=
  let m := lowerChars message
  let has_active_segment := context.activeSegment.isSome
  let document_panel_open := context.documentPanelOpen
  let segment_name :=
    ((context.activeSegment.map (fun seg => seg.name.getD "selected section")).getD
      "selected section")
  -- PRIORITY 0: navigation, only when the document panel is open
  if document_panel_open && navigateMatch m then
    some { intent := "navigate_section", confidence := mkRat 95 100,
           reasoning := "User wants to navigate to a specific section within the currently open "
             ++ pyOrStr context.documentFormat "document",
           suggestedAction := "Find and select the requested section: \"" ++ message ++ "\"",
           requiresContext := false, suggestedModel := "orchestrator", usedLLM := false }
  -- PRIORITY 1: content writing, only when a segment is selected
  else if has_active_segment && writeMatch m then
    some { intent := "write_content", confidence := mkRat 95 100,
           reasoning := "User explicitly requested content generation for \"" ++ segment_name
             ++ "\" with keywords like \"write\", \"expand\", or \"continue\"",
           suggestedAction := "Generate content for the selected section: \"" ++ segment_name ++ "\"",
           requiresContext := true, suggestedModel := "writer", usedLLM := false }
  else if has_active_segment && rewriteCoMatch m then
    some { intent := "rewrite_with_coherence", confidence := mkRat 95 100,
           reasoning := "User wants multi-section operation: modify \"" ++ segment_name
             ++ "\" and/or other sections (coherence/batch generation)",
           suggestedAction := "Analyze dependencies, write/rewrite sections, and ensure story consistency",
           requiresContext := true, suggestedModel := "orchestrator", usedLLM := false }
  else if has_active_segment && improveMatch m then
    some { intent := "improve_content", confidence := mkRat 9 10,
           reasoning := "User wants to improve existing content in \"" ++ segment_name ++ "\"",
           suggestedAction := "Refine and enhance the content in: \"" ++ segment_name ++ "\"",
           requiresContext := true, suggestedModel := "editor", usedLLM := false }
  -- PRIORITY 2: delete node
  else if deleteMatch m then
    some { intent := "delete_node", confidence := mkRat 9 10,
           reasoning := "User wants to delete/remove a canvas node",
           suggestedAction := "Identify which node to delete and confirm with user",
           requiresContext := false, suggestedModel := "orchestrator", usedLLM := false }
  -- PRIORITY 3: answer question
  else if answerMatch m then
    some { intent := "answer_question", confidence := mkRat 9 10,
           reasoning := "User is asking for explanation or information based on interrogative patterns",
           suggestedAction := "Answer the user\x27s question using orchestrator model in chat",
           requiresContext := false, suggestedModel := "orchestrator", usedLLM := false }
  -- PRIORITY 4: open and write, when a canvas node is referenced
  else if !document_panel_open && !has_active_segment && canvasTruthy context.canvasContext
            && openAndWriteMatch m then
    some { intent := "open_and_write", confidence := mkRat 95 100,
           reasoning := "User wants to write content in an existing canvas node - will auto-open document",
           suggestedAction := "Open the referenced document and prepare for content writing",
           requiresContext := false, suggestedModel := "orchestrator", usedLLM := false }
  -- PRIORITY 5: structure creation, only when the panel is closed
  else if !document_panel_open && !has_active_segment && structureMatch m then
    some { intent := "create_structure", confidence := mkRat 9 10,
           reasoning := "User wants to create a new story structure from scratch (document panel is closed)",
           suggestedAction := "Generate a complete story structure using orchestrator model",
           requiresContext := false, suggestedModel := "orchestrator", usedLLM := false }
  -- PRIORITY 6: modify structure
  else if modifyStructureMatch m then
    some { intent := "modify_structure", confidence := mkRat 85 100,
           reasoning := "User wants to modify the existing story structure",
           suggestedAction := "Update the story structure based on user request",
           requiresContext := false, suggestedModel := "orchestrator", usedLLM := false }
  -- complex patterns and the final fall-through both return None
  else none

/-! Graph state, node deltas and reducers (graph/state.py). -/

/-- An observability Message `\x7brole, content, type\x7d` (graph/state.py). -/
structure Message where
  role : String
  content : String
  type : String

/-- An orchestrator Action (graph/state.py); payload values are JSON. -/
structure Action where
  type : String
  payload : List (String × Json) := []
  requiresUserInput : Bool := false
  priority : String := "normal"

/-- OrchestratorState (graph/state.py), with the fields the modelled
nodes read or write.  Numeric fields are the Python ints, list/dict
fields the reducer-merged collections. -/
structure GState where
  user_message : String := ""
  active_segment : Option Segment := none
  document_panel_open : Bool := false
  document_format : Option String := none
  canvas_context : Option String := none
  intent : Option IntentAnalysis := none
  strategy : Option String := none
  actions : List Action := []
  results : List (Json × String) := []
  messages : List Message := []
  iteration : Nat := 0
  max_iterations : Nat := 3
  critic_approved : Bool := false
  enable_critic : Bool := true
  error : Option String := none

/-- A node\x27s partial state update: `none` / `[]` means the key is absent
from the returned dict and the field is left unchanged by the merge. -/
structure Delta where
  intent : Option IntentAnalysis := none
  strategy : Option String := none
  actions : List Action := []
  results : Option (List (Json × String)) := none
  messages : List Message := []
  iteration : Option Nat := none
  critic_approved : Option Bool := none
  error : Option String := none

/-- Equality of JSON dict keys.  Python dict keys must be hashable, and
every key built by the modelled nodes is an atom (string or null), so
composite values never arise as keys. -/
def jatomEq : Json → Json → Bool
  | Json.null, Json.null => true
  | Json.bool a, Json.bool b => a == b
  | Json.num a, Json.num b => a == b
  | Json.str a, Json.str b => a == b
  | _, _ => false

/-- Python `d[k] = v` on an insertion-ordered dict: update in place when
the key exists, append otherwise. -/
def dictSet (d : List (Json × String)) (k : Json) (v : String) : List (Json × String) :=
  if d.any (fun p => jatomEq p.1 k) then
    d.map (fun p => if jatomEq p.1 k then (p.1, v) else p)
  else d ++ [(k, v)]

/-- merge_results reducer (graph/state.py): Python `\x7b**existing, **new\x7d`,
right-biased key-wise union preserving insertion order. -/
def merge_results (existing new : List (Json × String)) : List (Json × String) :=
  new.foldl (fun acc p => dictSet acc p.1 p.2) existing

/-- Apply a node\x27s delta to the state with the per-field reducers of
OrchestratorState: append for `actions` and `messages`, right-biased
dict union for `results`, plain overwrite for every other present key. -/
def mergeDelta (s : GState) (d : Delta) : GState :=
  { s with
    intent := match d.intent with | some i => some i | none => s.intent,
    strategy := match d.strategy with | some t => some t | none => s.strategy,
    actions := s.actions ++ d.actions,
    results := match d.results with | some r => merge_results s.results r | none => s.results,
    messages := s.messages ++ d.messages,
    iteration := d.iteration.getD s.iteration,
    critic_approved := d.critic_approved.getD s.critic_approved,
    error := match d.error with | some e => some e | none => s.error }

/-! Routers (graph/workflow.py). -/

/-- Python truthiness of the optional error string (`if error:`):
`None` and the empty string are falsy. -/
def pyTruthyErr (e : Option String) : Bool :=
  match e with
  | none => false
  | some s => !(s == "")

/-- should_use_critic (workflow.py): critic only for the cluster
strategy with the critic enabled. -/
def should_use_critic (s : GState) : String :=
  if s.strategy == some "cluster" && s.enable_critic then "critic" else "merge"

/-- should_revise (workflow.py).  `state.get("max_iterations", 3) or 3`
turns a zero (falsy) bound back into 3. -/
def should_revise (s : GState) : String :=
  if s.critic_approved then "merge"
  else
    let iteration := s.iteration
    let max_iterations := if s.max_iterations == 0 then 3 else s.max_iterations
    if decide (max_iterations ≤ iteration) then "merge"
    else "revise"

/-- needs_action (workflow.py): skip execution on a truthy error, on the
general_chat / clarify intents, or when no actions were planned. -/
def needs_action (s : GState) : String :=
  let actions := s.actions
  let intent_type := (s.intent.map (fun i => i.intent)).getD ""
  if pyTruthyErr s.error then "merge"
  else if intent_type == "general_chat" || intent_type == "clarify" then "merge"
  else if decide (0 < actions.length) then "execute"
  else "merge"

/-! Node functions (graph/nodes.py).  Each returns a Delta holding only
the keys the Python dict contains. -/

/-- select_strategy_node (nodes.py): choose sequential / parallel /
cluster from intent type, action count, critic flag and confidence. -/
def select_strategy_node (s : GState) : Delta :=
  let intent_type := (s.intent.map (fun i => i.intent)).getD ""
  let actions := s.actions
  let enable_critic := s.enable_critic
  let strategy :=
    if intent_type == "answer_question" || intent_type == "general_chat"
        || intent_type == "navigate_section" then "sequential"
    else if intent_type == "create_structure" then "sequential"
    else if decide (3 ≤ actions.length) then "parallel"
    else if (intent_type == "write_content" || intent_type == "improve_content")
        && enable_critic then
      (if ((s.intent.map (fun i => i.confidence)).getD 0 : ℚ) > mkRat 9 10 then "cluster"
       else "sequential")
    else "sequential"
  { strategy := some strategy,
    messages := [⟨"orchestrator", "Strategy: " ++ strategy, "thinking"⟩] }

/-- generate_actions_node (nodes.py): one case per intent tag; unmapped
intents yield no actions. -/
def generate_actions_node (s : GState) : Delta :=
  let intent_type := (s.intent.map (fun i => i.intent)).getD ""
  let actions : List Action :=
    if intent_type == "write_content" then
      match s.active_segment with
      | some segment =>
        [{ type := "generate_content",
           payload := [("sectionId", (segment.id.map Json.str).getD Json.null),
                       ("sectionName", (segment.name.map Json.str).getD Json.null),
                       ("prompt", Json.str s.user_message)],
           requiresUserInput := false, priority := "normal" }]
      | none =>
        [{ type := "generate_content",
           payload := [("prompt", Json.str s.user_message)],
           requiresUserInput := false, priority := "normal" }]
    else if intent_type == "create_structure" then
      let entities := (s.intent.map (fun i => i.extractedEntities)).getD []
      [{ type := "generate_structure",
         payload := [("format", (entities.lookup "documentFormat").getD (Json.str "novel")),
                     ("prompt", Json.str s.user_message)],
         requiresUserInput := false, priority := "high" }]
    else if intent_type == "answer_question" then
      [{ type := "generate_content",
         payload := [("prompt", Json.str s.user_message), ("isAnswer", Json.bool true)],
         requiresUserInput := false, priority := "normal" }]
    else if intent_type == "navigate_section" then
      let entities := (s.intent.map (fun i => i.extractedEntities)).getD []
      [{ type := "select_section",
         payload := [("sectionId", (entities.lookup "targetSection").getD Json.null),
                     ("sectionName", (entities.lookup "targetSectionName").getD Json.null)],
         requiresUserInput := false, priority := "high" }]
    else if intent_type == "general_chat" then
      [{ type := "generate_content",
         payload := [("prompt", Json.str s.user_message), ("isChat", Json.bool true)],
         requiresUserInput := false, priority := "low" }]
    else []
  -- the Python f-string also interpolates the repr of the action-type
  -- list; the list is rendered here without the repr quoting
  { actions := actions,
    messages := [⟨"orchestrator",
      "Generated " ++ toString actions.length ++ " action(s): "
        ++ toString (actions.map (fun a => a.type)), "thinking"⟩] }

/-! Writer node (nodes.py together with graph/agents/writer.py).  The
external content-generation provider is an oracle indexed by the number
of provider calls made so far in the run: `Except.ok` is a returned
completion, `Except.error` a raised exception. -/

/-- The for-loop of writer_node: for every generate_content action call
the provider and store the output under the sectionId key (defaulting to
"default"); a raised exception aborts the whole loop.  Returns the
updated results copy and the advanced call counter. -/
def writerGo (gen : Nat → Except String String) :
    List Action → List (Json × String) → Nat → Except (String × Nat) (List (Json × String) × Nat)
  | [], results, k => Except.ok (results, k)
  | action :: rest, results, k =>
    if action.type == "generate_content" then
      let payload := action.payload
      let section_id := (payload.lookup "sectionId").getD (Json.str "default")
      -- the prompt, section name and canvas context are passed to the
      -- provider; the oracle abstracts over them
      match gen k with
      | Except.error e => Except.error (e, k + 1)
      | Except.ok content => writerGo gen rest (dictSet results section_id content) (k + 1)
    else writerGo gen rest results k

/-- writer_node (nodes.py): on success merge the generated contents into
a copy of `results` and increment `iteration`; a provider exception is
caught and turned into an `error` plus a system Message, leaving
`results` and `iteration` out of the delta. -/
def writer_node (gen : Nat → Except String String) (k : Nat) (s : GState) : Delta × Nat :=
  match writerGo gen s.actions s.results k with
  | Except.ok (results, kNew) =>
    let current_iteration := s.iteration
    ({ results := some results,
       iteration := some (current_iteration + 1),
       messages := [⟨"orchestrator",
         "Content generated (iteration " ++ toString (current_iteration + 1) ++ ")",
         "result"⟩] }, kNew)
  | Except.error (e, kNew) =>
    ({ error := some e,
       messages := [⟨"system", "Writer failed: " ++ e, "error"⟩] }, kNew)

/-! Critic (graph/agents/critic.py and critic_node of nodes.py).  The
external critique provider\x27s behaviour on a given content is one of:
a raised exception (LLM error, or a non-comparable parsed score raising
TypeError at `score >= threshold`), a parsed JSON object (score present
or absent), or an unparsable response. -/

/-- Behaviour of one critique-provider call. -/
inductive CritB where
  | raise (msg : String)
  | json (score : Option ℚ) (feedback : String)
  | unparsable

/-- CritiqueResult (critic.py): score, feedback, suggestions, approved. -/
structure CritiqueResult where
  score : ℚ
  feedback : String
  suggestions : List String := []
  approved : Bool

/-- critique_content (critic.py): derive `approved` as
`score >= threshold`; a missing score defaults to 5; an unparsable
response yields score 7 and auto-approval; provider exceptions
propagate to the caller. -/
def critique_content (b : CritB) (threshold : ℚ := 7) : Except String CritiqueResult :=
  match b with
  | CritB.raise m => Except.error m
  | CritB.json score feedback =>
    let s := score.getD 5
    Except.ok { score := s, feedback := feedback, suggestions := [], approved := decide (threshold ≤ s) }
  | CritB.unparsable =>
    Except.ok { score := 7, feedback := "Unable to parse critique response",
                suggestions := [], approved := true }

/-- Printable form of a results key for the feedback line (Python
f-string interpolation of the section id). -/
def jkeyStr : Json → String
  | Json.str s => s
  | Json.null => "None"
  | Json.bool true => "True"
  | Json.bool false => "False"
  | Json.num q => toString q
  | _ => ""

/-- The for-loop of critic_node: critique every entry of `results`,
conjoining approvals and collecting feedback; a provider exception
propagates out of the loop. -/
def criticGo (oracle : String → CritB) :
    List (Json × String) → Bool → List String → Except String (Bool × List String)
  | [], all_approved, feedback => Except.ok (all_approved, feedback)
  | (section_id, content) :: rest, all_approved, feedback =>
    match critique_content (oracle content) with
    | Except.error e => Except.error e
    | Except.ok critique =>
      if critique.approved then criticGo oracle rest all_approved feedback
      else criticGo oracle rest false (feedback ++ [jkeyStr section_id ++ ": " ++ critique.feedback])

/-- critic_node (nodes.py): empty results auto-approve; otherwise
`critic_approved` is the conjunction of the per-section approvals; a
provider exception is caught, auto-approves (fail-open) and is logged
as a system Message. -/
def critic_node (oracle : String → CritB) (s : GState) : Delta :=
  let results := s.results
  if results.isEmpty then
    { critic_approved := some true,
      messages := [⟨"orchestrator", "No content to review", "decision"⟩] }
  else
    match criticGo oracle results true [] with
    | Except.ok (all_approved, feedback) =>
      { critic_approved := some all_approved,
        messages := [⟨"orchestrator",
          if all_approved then "Approved" else "Needs revision: " ++ String.intercalate "; " feedback,
          "decision"⟩] }
    | Except.error e =>
      { critic_approved := some true,
        messages := [⟨"system", "Critic failed, auto-approving: " ++ e, "error"⟩] }

/-- merge_results_node (nodes.py): summary Message counting the truthy
(non-empty) results. -/
def merge_results_node (s : GState) : Delta :=
  let completed := (s.results.filter (fun p => !(p.2 == ""))).length
  { messages := [⟨"orchestrator", "Completed " ++ toString completed ++ " action(s)", "result"⟩] }

/-! The writer/critic revision loop of the compiled graph
(build_orchestrator_graph in workflow.py): writer, then the
should_use_critic conditional edge, then critic and the should_revise
conditional edge, looping back to writer on "revise".  The loop is run
with explicit fuel; the provider-call counter and the count of writer
executions are threaded through. -/

/-- Outcome of running the revision loop with a given amount of fuel:
either merge_results was reached, or the fuel ran out mid-loop.  Both
carry the state and how many times the writer node executed. -/
inductive RunRes where
  | merged (s : GState) (writerRuns : Nat)
  | fuelOut (s : GState) (writerRuns : Nat)

/-- Run the revision loop from the writer node, merging each node delta
with the state reducers and following the conditional edges of
workflow.py. -/
def runLoop (gen : Nat → Except String String) (oracle : String → CritB) :
    Nat → Nat → Nat → GState → RunRes
  | 0, _, writerRuns, s => RunRes.fuelOut s writerRuns
  | fuel + 1, k, writerRuns, s =>
    let wk := writer_node gen k s
    let s1 := mergeDelta s wk.1
    let writerRuns1 := writerRuns + 1
    if should_use_critic s1 == "critic" then
      let s2 := mergeDelta s1 (critic_node oracle s1)
      if should_revise s2 == "merge" then
        RunRes.merged (mergeDelta s2 (merge_results_node s2)) writerRuns1
      else runLoop gen oracle fuel wk.2 writerRuns1 s2
    else RunRes.merged (mergeDelta s1 (merge_results_node s1)) writerRuns1

/-! Deep analyzer response handling
(orchestrator/intent/deep_analyzer.py).  The provider call is an
`Except` outcome; `json.loads` is an arbitrary parameter
`loads : List Char → Option Json` (`none` = JSONDecodeError). -/

/-- Python `str.strip()`: drop leading and trailing whitespace. -/
def stripChars (s : List Char) : List Char :=
  ((s.dropWhile Char.isWhitespace).reverse.dropWhile Char.isWhitespace).reverse

/-- Index of the first occurrence of `needle` in `hay`, if any. -/
def findSub (needle hay : List Char) : Option Nat :=
  (List.range (hay.length + 1)).find? (fun i => needle.isPrefixOf (hay.drop i))

/-- Python `s.split(sep)[1]` under the guarantee that `s` starts with
`sep`: the text between the first and second occurrence of `sep` (or
everything after the first when it occurs only once). -/
def splitSecond (sep s : List Char) : List Char :=
  match findSub sep s with
  | none => []
  | some i =>
    let rest := s.drop (i + sep.length)
    match findSub sep rest with
    | none => rest
    | some j => rest.take j

/-- The opening and closing brace characters. -/
def braceOpen : Char := Char.ofNat 123

/-- Closing brace. -/
def braceClose : Char := Char.ofNat 125

/-- Index of the last occurrence of `c` in `s`, if any. -/
def lastIdxOf (c : Char) (s : List Char) : Option Nat :=
  (List.range s.length).foldl (fun acc i => if s.getD i ' ' == c then some i else acc) none

/-- The greedy regex `\x7b[\s\S]*\x7d` searched in `s`: from the first
opening brace to the last closing brace, when the latter comes after
the former. -/
def extractBraces (s : List Char) : Option (List Char) :=
  match findSub [braceOpen] s, lastIdxOf braceClose s with
  | some i, some j => if i < j then some ((s.drop i).take (j - i + 1)) else none
  | _, _ => none

/-- The response clean-up of _parse_response: strip, unwrap a fenced
code block (dropping a leading "json" tag), strip again, and when the
text does not start with an opening brace extract the first balanced
brace span. -/
def parseMunge (response_text : List Char) : List Char :=
  let content := stripChars response_text
  let content :=
    if ("```".toList).isPrefixOf content then
      let c := splitSecond ("```".toList) content
      if ("json".toList).isPrefixOf c then c.drop 4 else c
    else content
  let content := stripChars content
  if [braceOpen].isPrefixOf content then content
  else
    match extractBraces content with
    | some c => c
    | none => content

/-- Python `float(x)` on a JSON value: numbers pass through, booleans
become 0/1, numeric strings are parsed (plain decimals; the exponent
and inf/nan forms are not modelled), anything else raises (modelled as
`none`). -/
def digitsToNat (ds : List Char) : Nat :=
  ds.foldl (fun a c => a * 10 + (c.toNat - 48)) 0

/-- Decimal-string parsing for `float(str)`. -/
def parseDecimal (s0 : List Char) : Option ℚ :=
  let s := stripChars s0
  let signed : ℚ × List Char :=
    match s with
    | '-' :: r => (-1, r)
    | '+' :: r => (1, r)
    | _ => (1, s)
  let intPart := signed.2.takeWhile Char.isDigit
  let rest := signed.2.dropWhile Char.isDigit
  match rest with
  | [] => if intPart.isEmpty then none else some (signed.1 * (digitsToNat intPart : ℚ))
  | '.' :: frac =>
    if frac.all Char.isDigit && !(intPart.isEmpty && frac.isEmpty) then
      some (signed.1 * ((digitsToNat intPart : ℚ) + (digitsToNat frac : ℚ) / (10 ^ frac.length)))
    else none
  | _ => none

/-- Coercion `float(...)` applied to the confidence JSON value. -/
def pyFloat : Json → Option ℚ
  | Json.num q => some q
  | Json.bool b => some (if b then 1 else 0)
  | Json.str s => parseDecimal s.toList
  | _ => none

/-- Dict lookup `data.get(k)` on a parsed JSON object. -/
def jget (data : List (String × Json)) (k : String) : Option Json := data.lookup k

/-- Pydantic acceptance of a required string field. -/
def asStr : Json → Option String
  | Json.str s => some s
  | _ => none

/-- Pydantic acceptance of a boolean field. -/
def asBool : Json → Option Bool
  | Json.bool b => some b
  | _ => none

/-- Pydantic acceptance of the optional clarifyingQuestion field. -/
def asOptStr : Json → Option (Option String)
  | Json.null => some none
  | Json.str s => some (some s)
  | _ => none

/-- Pydantic acceptance of the extractedEntities object field. -/
def asObj : Json → Option (List (String × Json))
  | Json.obj kvs => some kvs
  | _ => none

/-- The field extraction and IntentAnalysis construction of
_parse_response: each field read with `data.get` and its default,
`confidence` coerced with `float(...)` and validated against the
pydantic bounds 0 ≤ confidence ≤ 1; any coercion or validation failure
raises inside the enclosing try (modelled as `none`). -/
def parseFields (data : List (String × Json)) : Option IntentAnalysis :=
  Option.bind (asStr ((jget data "intent").getD (Json.str "general_chat"))) fun intent =>
  Option.bind (pyFloat ((jget data "confidence").getD (Json.num (mkRat 1 2)))) fun confidence =>
  Option.bind (asStr ((jget data "reasoning").getD (Json.str "Deep analysis completed"))) fun reasoning =>
  Option.bind (asStr ((jget data "suggestedAction").getD (Json.str "Process the request"))) fun suggestedAction =>
  Option.bind (asBool ((jget data "requiresContext").getD (Json.bool true))) fun requiresContext =>
  Option.bind (asStr ((jget data "suggestedModel").getD (Json.str "orchestrator"))) fun suggestedModel =>
  Option.bind (asBool ((jget data "needsClarification").getD (Json.bool false))) fun needsClarification =>
  Option.bind (asOptStr ((jget data "clarifyingQuestion").getD Json.null)) fun clarifyingQuestion =>
  Option.bind (asObj ((jget data "extractedEntities").getD (Json.obj []))) fun extractedEntities =>
  if (0 : ℚ) ≤ confidence ∧ confidence ≤ 1 then
    some { intent := intent, confidence := confidence, reasoning := reasoning,
           suggestedAction := suggestedAction, requiresContext := requiresContext,
           suggestedModel := suggestedModel, needsClarification := needsClarification,
           clarifyingQuestion := clarifyingQuestion, extractedEntities := extractedEntities,
           usedLLM := true }
  else none

/-- _create_fallback_intent (deep_analyzer.py); the message argument is
unused by the body, as in the source. -/
def _create_fallback_intent (_message : String) : IntentAnalysis :=
  { intent := "general_chat", confidence := mkRat 3 10,
    reasoning := "Deep analysis failed, defaulting to conversation",
    suggestedAction := "Respond conversationally and ask for clarification",
    requiresContext := false, suggestedModel := "orchestrator",
    needsClarification := true,
    clarifyingQuestion := some "I\x27m not sure I understood your request. Could you please clarify what you\x27d like me to do?",
    extractedEntities := [], usedLLM := true }

/-- _parse_response (deep_analyzer.py): clean the text, `json.loads`
it, extract the fields; any exception — unparsable JSON, a non-object
result (`data.get` raising AttributeError), a failed float coercion or
pydantic validation — falls back. -/
def _parse_response (loads : List Char → Option Json) (response_text : List Char) : IntentAnalysis :=
  let content := parseMunge response_text
  match loads content with
  | some (Json.obj data) =>
    match parseFields data with
    | some ia => ia
    | none => _create_fallback_intent ""
  | _ => _create_fallback_intent ""

/-- DeepAnalyzer.analyze (deep_analyzer.py): a raised provider call is
caught and falls back; otherwise the response text is parsed. -/
def analyze (loads : List Char → Option Json) (message : String)
    (providerResponse : Except String (List Char)) : IntentAnalysis :=
  match providerResponse with
  | Except.error _ => _create_fallback_intent message
  | Except.ok response_text => _parse_response loads response_text

/-! Spec-side definition for the refinement claim about the strategy
selector, written from the words of spec §4.4 only, to be compared with
`select_strategy_node` above. -/

/-- The strategy-selection rules exactly as the spec states them, in the
spec\x27s order: the four conversational/structural intents are
sequential; else three or more actions are parallel; else a content
intent with the critic enabled and confidence strictly above 0.9 is
cluster; otherwise sequential. -/
def selectStrategySpec (s : GState) : String :=
  let it := (s.intent.map (fun i => i.intent)).getD ""
  let conf : ℚ := (s.intent.map (fun i => i.confidence)).getD 0
  if it == "answer_question" || it == "general_chat" || it == "navigate_section"
      || it == "create_structure" then "sequential"
  else if decide (3 ≤ s.actions.length) then "parallel"
  else if (it == "write_content" || it == "improve_content") && s.enable_critic
      && decide (conf > mkRat 9 10) then "cluster"
  else "sequential"

/-! Concrete inputs used by witnesses and counterexamples. -/

/-- Context with no document open and no segment selected. -/
def emptyCtx : PipelineContext := {}

/-- Context with the document panel open and no segment selected. -/
def docOpenCtx : PipelineContext :=
  { documentPanelOpen := true, documentFormat := some "novel" }

/-- Context with the document panel open and a segment selected. -/
def segCtx : PipelineContext :=
  { activeSegment := some { id := some "ch1", name := some "Chapter 1", level := some 2 },
    documentPanelOpen := true, documentFormat := some "novel" }

/-- A general_chat intent as the deep stage would resolve it. -/
def gcIntent : IntentAnalysis :=
  { intent := "general_chat", confidence := mkRat 1 2,
    reasoning := "General conversation", suggestedAction := "Respond conversationally",
    usedLLM := true }

/-- State holding a general_chat intent before action planning. -/
def gcBase : GState := { user_message := "hello there friend", intent := some gcIntent }

/-- The same state after the action-planning node ran: it carries one
planned generate_content action. -/
def c6State : GState := mergeDelta gcBase (generate_actions_node gcBase)

/-- A provider that raises on every call. -/
def genRaise : Nat → Except String String := fun _ => Except.error "boom"

/-- A state about to execute one content-generation action. -/
def c10State : GState :=
  { user_message := "write this chapter",
    active_segment := some { id := some "ch1", name := some "Chapter 1", level := some 2 },
    intent := some { intent := "write_content", confidence := mkRat 95 100,
                     reasoning := "r", suggestedAction := "a" },
    strategy := some "cluster",
    actions := [{ type := "generate_content",
                  payload := [("sectionId", Json.str "ch1"), ("sectionName", Json.str "Chapter 1"),
                              ("prompt", Json.str "write this chapter")] }],
    results := [(Json.str "ch1", "old draft")], iteration := 2 }

/-- The delta the writer node returns when its first provider call
raises "boom". -/
def c10Delta : Delta :=
  { error := some "boom",
    messages := [⟨"system", "Writer failed: boom", "error"⟩] }

/-- Whether a critique-provider behaviour is a raised exception. -/
def IsRaise : CritB → Bool
  | CritB.raise _ => true
  | _ => false

/-- The score critique_content derives from a non-raising behaviour:
the parsed score, 5 when the score key is missing, 7 for an unparsable
response. -/
def scoreOf : CritB → ℚ
  | CritB.raise _ => 0
  | CritB.json score _ => score.getD 5
  | CritB.unparsable => 7

/-- A critique provider scoring 9 for one content and 3 for the rest. -/
def c8OracleA : String → CritB :=
  fun c => if c = "good" then CritB.json (some 9) "nice" else CritB.json (some 3) "weak"

/-- A critique provider that always raises. -/
def c8OracleB : String → CritB := fun _ => CritB.raise "timeout"

/-- A state with two generated sections awaiting critique. -/
def c8State : GState :=
  { results := [(Json.str "a", "good"), (Json.str "b", "weak content")] }

/-- A parsed provider response setting needsClarification without a
clarifyingQuestion. -/
def c9Json : Json := Json.obj [("needsClarification", Json.bool true)]

/-- The raw response text for that JSON object. -/
def c9Text : List Char := "\x7b\"needsClarification\": true\x7d".toList

/-- The behaviour of `json.loads` on that concrete text. -/
def c9Loads : List Char → Option Json :=
  fun s => if s = c9Text then some c9Json else none

/-- The single content-generation action of the revision-loop run. -/
def c1Action : Action :=
  { type := "generate_content",
    payload := [("sectionId", Json.str "ch1"), ("sectionName", Json.str "Chapter 1"),
                ("prompt", Json.str "write this chapter")] }

/-- A content-generation provider that succeeds on its first call and
raises on every later call. -/
def c1Gen : Nat → Except String String :=
  fun k => if k == 0 then Except.ok "draft" else Except.error "boom"

/-- A critique provider that always returns score 5 (reject). -/
def c1Oracle : String → CritB := fun _ => CritB.json (some 5) "needs work"

/-- The run state entering the revision loop: a write_content intent at
confidence 0.95, cluster strategy, critic enabled, one planned action,
max_iterations 3. -/
def c1State : GState :=
  { user_message := "write this chapter",
    active_segment := some { id := some "ch1", name := some "Chapter 1", level := some 2 },
    intent := some { intent := "write_content", confidence := mkRat 95 100,
                     reasoning := "r", suggestedAction := "a", requiresContext := true,
                     suggestedModel := "writer" },
    strategy := some "cluster",
    actions := [c1Action],
    results := [], iteration := 0, max_iterations := 3,
    critic_approved := false, enable_critic := true }

/-- The delta of a failing writer pass in that run. -/
def c1WriterFailDelta : Delta :=
  { error := some "boom",
    messages := [⟨"system", "Writer failed: boom", "error"⟩] }

/-- The delta of each rejecting critic pass in that run. -/
def c1CriticDelta : Delta :=
  { critic_approved := some false,
    messages := [⟨"orchestrator", "Needs revision: ch1: needs work", "decision"⟩] }

/-- The state at the end of the first revision cycle: the writer
succeeded once (iteration 1, one result) and the critic rejected. -/
def c1S2 : GState :=
  mergeDelta (mergeDelta c1State (writer_node c1Gen 0 c1State).1)
    (critic_node c1Oracle (mergeDelta c1State (writer_node c1Gen 0 c1State).1))

/-! Theorems settling the claims. -/

/-- C2: for every state, the strategy selector returns sequential for
answer_question, general_chat, navigate_section and create_structure,
otherwise parallel for three or more actions, otherwise cluster for
write_content / improve_content with the critic enabled and confidence
strictly above 0.9, otherwise sequential — the rules applied in exactly
the spec\x27s order. -/
theorem c2_select_strategy_matches_spec (s : GState) :
    (select_strategy_node s).strategy = some (selectStrategySpec s) := by
  simp only [select_strategy_node, selectStrategySpec]
  split_ifs <;> simp_all <;> linarith

/-- C5: the pattern classifier returns create_structure only when the
document panel is closed and no segment is active. -/
theorem c5_create_structure_gating (msg : String) (ctx : PipelineContext) (r : IntentAnalysis)
    (h : classify_with_patterns msg ctx = some r) (hi : r.intent = "create_structure") :
    ctx.documentPanelOpen = false ∧ ctx.activeSegment = none := by
  simp only [classify_with_patterns] at h
  split_ifs at h with h0 h1 h2 h3 h4 h5 h6 h7 h8
  all_goals injection h with h
  all_goals subst h
  all_goals simp_all

/-- C5 witness: on "Create a novel about dragons" in the empty context
the classifier does return create_structure, and the theorem applies. -/
theorem c5_create_structure_gating_witness :
    emptyCtx.documentPanelOpen = false ∧ emptyCtx.activeSegment = none :=
  c5_create_structure_gating "Create a novel about dragons" emptyCtx
    { intent := "create_structure", confidence := mkRat 9 10,
      reasoning := "User wants to create a new story structure from scratch (document panel is closed)",
      suggestedAction := "Generate a complete story structure using orchestrator model",
      requiresContext := false, suggestedModel := "orchestrator", usedLLM := false }
    rfl rfl

/-- C6 counterexample: a reachable state (general_chat intent, the
action list the planner produced for it) has a non-empty action list
yet the workflow routes to merge, not to the writer. -/
theorem c6_counterexample :
    needs_action c6State = "merge" ∧ c6State.actions.length = 1 := by
  constructor <;> rfl

/-- C6 amended: after strategy selection the workflow routes to the
writer node if and only if the error field is falsy, the resolved
intent is neither general_chat nor clarify, and the action list is
non-empty; in every other case it skips to merge. -/
theorem c6_needs_action_iff (s : GState) :
    needs_action s = "execute" ↔
      (pyTruthyErr s.error = false
        ∧ (s.intent.map (fun i => i.intent)).getD "" ≠ "general_chat"
        ∧ (s.intent.map (fun i => i.intent)).getD "" ≠ "clarify"
        ∧ s.actions ≠ []) := by
  simp only [needs_action]
  split_ifs with h0 h1 h2 <;> simp_all [List.length_pos] <;> tauto

/-- C6 witness: a state with one action, a write_content intent and no
error does route to the writer. -/
theorem c6_needs_action_iff_witness : needs_action c10State = "execute" :=
  (c6_needs_action_iff c10State).mpr (by refine ⟨rfl, ?_, ?_, ?_⟩ <;> simp [c10State])

/-- C10: when the content-generation provider raises inside the writer
node, the returned delta holds only the error and a single system-role
error Message, and after the reducer merge the results mapping and the
iteration counter are unchanged. -/
theorem c10_writer_failure_frame (gen : Nat → Except String String) (k : Nat) (s : GState)
    (d : Delta) (kNew : Nat) (hw : writer_node gen k s = (d, kNew)) (he : d.error.isSome) :
    d.results = none ∧ d.iteration = none ∧ d.actions = [] ∧ d.intent = none
      ∧ d.strategy = none ∧ d.critic_approved = none
      ∧ (∃ e, d.error = some e ∧ d.messages = [⟨"system", "Writer failed: " ++ e, "error"⟩])
      ∧ (mergeDelta s d).results = s.results ∧ (mergeDelta s d).iteration = s.iteration := by
  unfold writer_node at hw
  cases hgo : writerGo gen s.actions s.results k with
  | ok pair =>
    rw [hgo] at hw
    cases hw
    simp at he
  | error pair =>
    rw [hgo] at hw
    cases hw
    refine ⟨rfl, rfl, rfl, rfl, rfl, rfl, ⟨pair.1, rfl, rfl⟩, ?_, ?_⟩ <;> simp [mergeDelta]

/-- C10 witness: the frame property instantiated on a concrete state
whose single provider call raises. -/
theorem c10_writer_failure_frame_witness :
    (mergeDelta c10State c10Delta).results = c10State.results
      ∧ (mergeDelta c10State c10Delta).iteration = c10State.iteration :=
  ((c10_writer_failure_frame genRaise 0 c10State c10Delta 1 rfl rfl).2.2.2.2.2.2.2)

/-- The critic loop on a raise-free results list returns the
conjunction of the accumulator with the per-section approvals. -/
theorem criticGo_no_raise (oracle : String → CritB) :
    ∀ (l : List (Json × String)) (acc : Bool) (fb : List String),
      (∀ p ∈ l, IsRaise (oracle p.2) = false) →
      ∃ fb2, criticGo oracle l acc fb
        = Except.ok (acc && l.all (fun p => decide (7 ≤ scoreOf (oracle p.2))), fb2) := by
  intro l
  induction l with
  | nil => intro acc fb _; exact ⟨fb, by simp [criticGo]⟩
  | cons p rest ih =>
    intro acc fb hnr
    have hhead : IsRaise (oracle p.2) = false := hnr p (List.mem_cons_self p rest)
    have hrest : ∀ q ∈ rest, IsRaise (oracle q.2) = false :=
      fun q hq => hnr q (List.mem_cons_of_mem p hq)
    obtain ⟨sid, content⟩ := p
    cases ho : oracle content with
    | raise m => rw [ho] at hhead; exact absurd hhead (by simp [IsRaise])
    | json score feedback =>
      by_cases hap : (7 : ℚ) ≤ score.getD 5
      · obtain ⟨fb2, hgo⟩ := ih acc fb hrest
        refine ⟨fb2, ?_⟩
        simp [criticGo, ho, critique_content, hap, hgo, scoreOf]
      · obtain ⟨fb2, hgo⟩ := ih false
          (fb ++ [jkeyStr sid ++ ": " ++ feedback]) hrest
        refine ⟨fb2, ?_⟩
        simp [criticGo, ho, critique_content, hap, hgo, scoreOf]
    | unparsable =>
      obtain ⟨fb2, hgo⟩ := ih acc fb hrest
      refine ⟨fb2, ?_⟩
      simp [criticGo, ho, critique_content, hgo, scoreOf]

/-- The critic loop raises as soon as some section critique raises. -/
theorem criticGo_raises (oracle : String → CritB) :
    ∀ (l : List (Json × String)) (acc : Bool) (fb : List String),
      (∃ p ∈ l, IsRaise (oracle p.2) = true) →
      ∃ e, criticGo oracle l acc fb = Except.error e := by
  intro l
  induction l with
  | nil => intro acc fb h; simp at h
  | cons p rest ih =>
    intro acc fb hex
    obtain ⟨sid, content⟩ := p
    cases ho : oracle content with
    | raise m => exact ⟨m, by simp [criticGo, ho, critique_content]⟩
    | json score feedback =>
      have hrest : ∃ q ∈ rest, IsRaise (oracle q.2) = true := by
        obtain ⟨q, hq, hr⟩ := hex
        rcases List.mem_cons.mp hq with hq | hq
        · subst hq; rw [ho] at hr; exact absurd hr (by simp [IsRaise])
        · exact ⟨q, hq, hr⟩
      simp only [criticGo, ho, critique_content]
      by_cases hap : (7 : ℚ) ≤ score.getD 5
      · obtain ⟨e, hgo⟩ := ih acc fb hrest
        exact ⟨e, by simp [hap, hgo]⟩
      · obtain ⟨e, hgo⟩ := ih false (fb ++ [jkeyStr sid ++ ": " ++ feedback]) hrest
        exact ⟨e, by simp [hap, hgo]⟩
    | unparsable =>
      have hrest : ∃ q ∈ rest, IsRaise (oracle q.2) = true := by
        obtain ⟨q, hq, hr⟩ := hex
        rcases List.mem_cons.mp hq with hq | hq
        · subst hq; rw [ho] at hr; exact absurd hr (by simp [IsRaise])
        · exact ⟨q, hq, hr⟩
      obtain ⟨e, hgo⟩ := ih acc fb hrest
      exact ⟨e, by simp [criticGo, ho, critique_content, hgo]⟩

/-- C8: a critiqued section is approved exactly when its score reaches
the default threshold 7; critic_approved is the conjunction of the
per-section approvals over all result entries; and when the critique
provider raises, the node fails open — critic_approved is set true and
a single system-role error Message records the degradation. -/
theorem c8_critic_approval_and_fail_open (oracle : String → CritB) (s : GState) :
    (∀ (b : CritB) (r : CritiqueResult),
        critique_content b = Except.ok r → (r.approved = true ↔ 7 ≤ r.score))
    ∧ ((∀ p ∈ s.results, IsRaise (oracle p.2) = false) →
        (critic_node oracle s).critic_approved
          = some (s.results.all (fun p => decide (7 ≤ scoreOf (oracle p.2)))))
    ∧ ((∃ p ∈ s.results, IsRaise (oracle p.2) = true) →
        (critic_node oracle s).critic_approved = some true
          ∧ ∃ m, (critic_node oracle s).messages = [m]
              ∧ m.role = "system" ∧ m.type = "error") := by
  refine ⟨?_, ?_, ?_⟩
  · intro b r h
    cases b with
    | raise m => exact Except.noConfusion h
    | json score feedback =>
      simp only [critique_content] at h
      injection h with h
      subst h
      simp
    | unparsable =>
      simp only [critique_content] at h
      injection h with h
      subst h
      norm_num
  · intro hnr
    cases hres : s.results with
    | nil => simp [critic_node, hres]
    | cons p rest =>
      rw [hres] at hnr
      obtain ⟨fb2, hgo⟩ := criticGo_no_raise oracle (p :: rest) true [] hnr
      simp [critic_node, hres, hgo]
  · intro hex
    cases hres : s.results with
    | nil => rw [hres] at hex; simp at hex
    | cons p rest =>
      rw [hres] at hex
      obtain ⟨e, hgo⟩ := criticGo_raises oracle (p :: rest) true [] hex
      refine ⟨by simp [critic_node, hres, hgo], ?_⟩
      exact ⟨⟨"system", "Critic failed, auto-approving: " ++ e, "error"⟩,
             by simp [critic_node, hres, hgo], rfl, rfl⟩

/-- C8 witness: with one passing and one failing section the state is
not approved; with a raising critique provider the node approves. -/
theorem c8_critic_approval_and_fail_open_witness :
    (critic_node c8OracleA c8State).critic_approved = some false
      ∧ (critic_node c8OracleB c8State).critic_approved = some true := by
  constructor
  · have h := (c8_critic_approval_and_fail_open c8OracleA c8State).2.1 (by decide)
    rw [h]
    decide
  · exact ((c8_critic_approval_and_fail_open c8OracleB c8State).2.2
      ⟨(Json.str "a", "good"), List.mem_cons_self _ _, rfl⟩).1

/-- Once the revision loop holds a rejected draft and every further
provider call raises, one cycle re-establishes the same core state:
the failed writer pass does not advance `iteration`, the critic keeps
rejecting, and should_revise keeps sending the run back to the writer.
Hence the loop consumes all fuel without reaching merge, executing the
writer once per cycle. -/
theorem c1_loop_stuck :
    ∀ (fuel k wc : Nat) (s : GState),
      s.actions = [c1Action] → s.results = [(Json.str "ch1", "draft")] →
      s.iteration = 1 → s.max_iterations = 3 → s.critic_approved = false →
      s.strategy = some "cluster" → s.enable_critic = true → k ≠ 0 →
      ∃ s2, runLoop c1Gen c1Oracle fuel k wc s = RunRes.fuelOut s2 (wc + fuel)
        ∧ s2.actions = [c1Action] ∧ s2.results = [(Json.str "ch1", "draft")]
        ∧ s2.iteration = 1 ∧ s2.max_iterations = 3 ∧ s2.critic_approved = false
        ∧ s2.strategy = some "cluster" ∧ s2.enable_critic = true := by
  intro fuel
  induction fuel with
  | zero =>
    intro k wc s h1 h2 h3 h4 h5 h6 h7 hk
    exact ⟨s, rfl, h1, h2, h3, h4, h5, h6, h7⟩
  | succ fuel ih =>
    intro k wc s h1 h2 h3 h4 h5 h6 h7 hk
    obtain ⟨n, rfl⟩ : ∃ n, k = n + 1 := ⟨k - 1, by omega⟩
    have hw : writer_node c1Gen (n + 1) s = (c1WriterFailDelta, n + 2) := by
      unfold writer_node
      rw [h1, h2]
      rfl
    have h1res : (mergeDelta s c1WriterFailDelta).results = [(Json.str "ch1", "draft")] :=
      (show (mergeDelta s c1WriterFailDelta).results = s.results from rfl).trans h2
    have h1act : (mergeDelta s c1WriterFailDelta).actions = [c1Action] := by
      rw [show (mergeDelta s c1WriterFailDelta).actions = s.actions ++ [] from rfl, h1,
          List.append_nil]
    have h1iter : (mergeDelta s c1WriterFailDelta).iteration = 1 :=
      (show (mergeDelta s c1WriterFailDelta).iteration = s.iteration from rfl).trans h3
    have h1max : (mergeDelta s c1WriterFailDelta).max_iterations = 3 :=
      (show (mergeDelta s c1WriterFailDelta).max_iterations = s.max_iterations from rfl).trans h4
    have h1app : (mergeDelta s c1WriterFailDelta).critic_approved = false :=
      (show (mergeDelta s c1WriterFailDelta).critic_approved = s.critic_approved from rfl).trans h5
    have h1strat : (mergeDelta s c1WriterFailDelta).strategy = some "cluster" :=
      (show (mergeDelta s c1WriterFailDelta).strategy = s.strategy from rfl).trans h6
    have h1ec : (mergeDelta s c1WriterFailDelta).enable_critic = true :=
      (show (mergeDelta s c1WriterFailDelta).enable_critic = s.enable_critic from rfl).trans h7
    have hu : should_use_critic (mergeDelta s c1WriterFailDelta) = "critic" := by
      simp [should_use_critic, h1strat, h1ec]
    have hcrit : critic_node c1Oracle (mergeDelta s c1WriterFailDelta) = c1CriticDelta := by
      unfold critic_node
      rw [h1res]
      rfl
    have h2act : (mergeDelta (mergeDelta s c1WriterFailDelta) c1CriticDelta).actions
        = [c1Action] := by
      rw [show (mergeDelta (mergeDelta s c1WriterFailDelta) c1CriticDelta).actions
            = (mergeDelta s c1WriterFailDelta).actions ++ [] from rfl, h1act, List.append_nil]
    have h2res : (mergeDelta (mergeDelta s c1WriterFailDelta) c1CriticDelta).results
        = [(Json.str "ch1", "draft")] :=
      (show (mergeDelta (mergeDelta s c1WriterFailDelta) c1CriticDelta).results
          = (mergeDelta s c1WriterFailDelta).results from rfl).trans h1res
    have h2iter : (mergeDelta (mergeDelta s c1WriterFailDelta) c1CriticDelta).iteration = 1 :=
      (show (mergeDelta (mergeDelta s c1WriterFailDelta) c1CriticDelta).iteration
          = (mergeDelta s c1WriterFailDelta).iteration from rfl).trans h1iter
    have h2max : (mergeDelta (mergeDelta s c1WriterFailDelta) c1CriticDelta).max_iterations
        = 3 :=
      (show (mergeDelta (mergeDelta s c1WriterFailDelta) c1CriticDelta).max_iterations
          = (mergeDelta s c1WriterFailDelta).max_iterations from rfl).trans h1max
    have h2app : (mergeDelta (mergeDelta s c1WriterFailDelta) c1CriticDelta).critic_approved
        = false := rfl
    have h2strat : (mergeDelta (mergeDelta s c1WriterFailDelta) c1CriticDelta).strategy
        = some "cluster" :=
      (show (mergeDelta (mergeDelta s c1WriterFailDelta) c1CriticDelta).strategy
          = (mergeDelta s c1WriterFailDelta).strategy from rfl).trans h1strat
    have h2ec : (mergeDelta (mergeDelta s c1WriterFailDelta) c1CriticDelta).enable_critic
        = true :=
      (show (mergeDelta (mergeDelta s c1WriterFailDelta) c1CriticDelta).enable_critic
          = (mergeDelta s c1WriterFailDelta).enable_critic from rfl).trans h1ec
    have hr : should_revise (mergeDelta (mergeDelta s c1WriterFailDelta) c1CriticDelta)
        = "revise" := by
      simp [should_revise, h2app, h2iter, h2max]
    have hstep : runLoop c1Gen c1Oracle (fuel + 1) (n + 1) wc s
        = runLoop c1Gen c1Oracle fuel (n + 2) (wc + 1)
            (mergeDelta (mergeDelta s c1WriterFailDelta) c1CriticDelta) := by
      simp only [runLoop, hw, hcrit]
      simp [hu, hr]
    obtain ⟨s2, heq, hp⟩ := ih (n + 2) (wc + 1)
      (mergeDelta (mergeDelta s c1WriterFailDelta) c1CriticDelta)
      h2act h2res h2iter h2max h2app h2strat h2ec (by omega)
    refine ⟨s2, ?_, hp⟩
    rw [hstep, heq]
    congr 1
    omega

/-- C1: the failing input — max_iterations 3, one generate_content
action under the cluster strategy with the critic enabled, a provider
that succeeds once and then raises on every call, and a critic that
always scores 5.  The run enters the writer (needs_action = execute),
and for every fuel bound the loop is still running, having executed
the writer once per cycle: the writer runs more than max_iterations
times and the run never reaches merge, because a failed writer pass
does not advance `iteration`. -/
theorem c1_revision_loop_unbounded :
    needs_action c1State = "execute"
      ∧ (select_strategy_node c1State).strategy = some "cluster"
      ∧ ∀ fuel : Nat, ∃ s, runLoop c1Gen c1Oracle fuel 0 0 c1State
          = RunRes.fuelOut s fuel := by
  refine ⟨rfl, by decide, ?_⟩
  intro fuel
  cases fuel with
  | zero => exact ⟨c1State, rfl⟩
  | succ m =>
    have hstep0 : runLoop c1Gen c1Oracle (m + 1) 0 0 c1State
        = runLoop c1Gen c1Oracle m 1 1 c1S2 := rfl
    obtain ⟨s2, heq, _⟩ := c1_loop_stuck m 1 1 c1S2 rfl rfl rfl rfl rfl rfl rfl (by omega)
    refine ⟨s2, ?_⟩
    rw [hstep0, heq]
    congr 1
    omega

/-- C3 counterexample: "what should I delete?" matches the interrogative
pattern (and ends in a question mark), yet the classifier returns
delete_node, because the delete tier has higher priority. -/
theorem c3_counterexample :
    answerMatch (lowerChars "what should I delete?") = true
      ∧ (classify_with_patterns "what should I delete?" emptyCtx).map (fun r => r.intent)
          = some "delete_node" :=
  ⟨rfl, rfl⟩

/-- C3 amended: for every message matching the interrogative pattern or
ending in a question mark, provided no higher-priority tier fires — the
navigation tier (document panel open with a navigation match), the
active-segment tiers (write / rewrite-coherence / improve) and the
delete tier — the pattern classifier returns answer_question with
confidence 0.9 (hence at least 0.9) and usedLLM = false. -/
theorem c3_answer_question_amended (msg : String) (ctx : PipelineContext)
    (hNav : ctx.documentPanelOpen = true → navigateMatch (lowerChars msg) = false)
    (hSeg : ctx.activeSegment.isSome = true →
      writeMatch (lowerChars msg) = false ∧ rewriteCoMatch (lowerChars msg) = false
        ∧ improveMatch (lowerChars msg) = false)
    (hDel : deleteMatch (lowerChars msg) = false)
    (hAns : answerMatch (lowerChars msg) = true) :
    ∃ r, classify_with_patterns msg ctx = some r ∧ r.intent = "answer_question"
      ∧ r.confidence ≥ 9/10 ∧ r.usedLLM = false := by
  have h0 : (ctx.documentPanelOpen && navigateMatch (lowerChars msg)) = false := by
    cases hp : ctx.documentPanelOpen with
    | false => rfl
    | true => simp [hNav hp]
  have h1 : (ctx.activeSegment.isSome && writeMatch (lowerChars msg)) = false := by
    cases hp : ctx.activeSegment.isSome with
    | false => rfl
    | true => simp [(hSeg hp).1]
  have h2 : (ctx.activeSegment.isSome && rewriteCoMatch (lowerChars msg)) = false := by
    cases hp : ctx.activeSegment.isSome with
    | false => rfl
    | true => simp [(hSeg hp).2.1]
  have h3 : (ctx.activeSegment.isSome && improveMatch (lowerChars msg)) = false := by
    cases hp : ctx.activeSegment.isSome with
    | false => rfl
    | true => simp [(hSeg hp).2.2]
  refine ⟨{ intent := "answer_question", confidence := mkRat 9 10,
            reasoning := "User is asking for explanation or information based on interrogative patterns",
            suggestedAction := "Answer the user\x27s question using orchestrator model in chat",
            requiresContext := false, suggestedModel := "orchestrator", usedLLM := false },
          ?_, rfl, by rw [Rat.mkRat_eq_divInt, Rat.divInt_eq_div]; norm_num, rfl⟩
  simp only [classify_with_patterns, h0, h1, h2, h3, hDel, hAns]
  simp

/-- C3 witness: a plain question in the empty context, where every
higher-priority tier is silent, classifies as answer_question. -/
theorem c3_answer_question_amended_witness :
    ∃ r, classify_with_patterns "What is the theme of my story?" emptyCtx = some r
      ∧ r.intent = "answer_question" ∧ r.confidence ≥ 9/10 ∧ r.usedLLM = false :=
  c3_answer_question_amended "What is the theme of my story?" emptyCtx
    (by simp [emptyCtx]) (by simp [emptyCtx]) rfl rfl

/-- C4 counterexample: "go to the end and write it" contains the
write-verb "write" and an active segment is set, yet the classifier
returns navigate_section because the navigation tier (panel open) has
higher priority. -/
theorem c4_counterexample :
    writeMatch (lowerChars "go to the end and write it") = true
      ∧ segCtx.activeSegment.isSome = true
      ∧ (classify_with_patterns "go to the end and write it" segCtx).map (fun r => r.intent)
          = some "navigate_section" :=
  ⟨rfl, rfl, rfl⟩

/-- C4 amended: a message containing a write-verb returns write_content
whenever a segment is active and the navigation tier does not fire
(panel closed or no navigation match); and when no segment is active
the classifier never returns write_content (segment-gating invariant). -/
theorem c4_write_content_gating :
    (∀ (msg : String) (ctx : PipelineContext),
        ctx.activeSegment.isSome = true →
        (ctx.documentPanelOpen = true → navigateMatch (lowerChars msg) = false) →
        writeMatch (lowerChars msg) = true →
        (classify_with_patterns msg ctx).map (fun r => r.intent) = some "write_content")
    ∧ (∀ (msg : String) (ctx : PipelineContext) (r : IntentAnalysis),
        ctx.activeSegment = none → classify_with_patterns msg ctx = some r →
        r.intent ≠ "write_content") := by
  constructor
  · intro msg ctx hseg hNav hw
    have h0 : (ctx.documentPanelOpen && navigateMatch (lowerChars msg)) = false := by
      cases hp : ctx.documentPanelOpen with
      | false => rfl
      | true => simp [hNav hp]
    have h1 : (ctx.activeSegment.isSome && writeMatch (lowerChars msg)) = true := by
      simp [hseg, hw]
    simp only [classify_with_patterns, h0, h1]
    simp
  · intro msg ctx r hseg h
    simp only [classify_with_patterns, hseg] at h
    split_ifs at h
    all_goals injection h with h
    all_goals subst h
    all_goals simp_all

/-- Inversion for the parseFields success path: the confidence field is
the float coercion of the JSON confidence value, and the clarification
fields come from their JSON values. -/
theorem parseFields_inv (data : List (String × Json)) (ia : IntentAnalysis)
    (h : parseFields data = some ia) :
    pyFloat ((jget data "confidence").getD (Json.num (mkRat 1 2))) = some ia.confidence
      ∧ asBool ((jget data "needsClarification").getD (Json.bool false))
          = some ia.needsClarification
      ∧ asOptStr ((jget data "clarifyingQuestion").getD Json.null)
          = some ia.clarifyingQuestion := by
  unfold parseFields at h
  simp only [Option.bind_eq_some] at h
  obtain ⟨i, hi, c, hc, r, hr, sa, hsa, rc, hrc, sm, hsm, nc, hnc, cq, hcq, ee, hee, hfin⟩ := h
  split_ifs at hfin
  injection hfin with hfin
  subst hfin
  exact ⟨hc, hnc, hcq⟩

/-- C7: analyze is total — a raised provider call, unparsable or
malformed JSON, a failed float coercion or failed validation all
collapse to the fallback IntentAnalysis (general_chat, confidence 0.3,
needsClarification with a non-empty question); on the success path the
confidence is the float coercion of the JSON confidence value. -/
theorem c7_analyze_total (loads : List Char → Option Json) (message : String)
    (resp : Except String (List Char)) :
    ((_create_fallback_intent message).intent = "general_chat"
      ∧ (_create_fallback_intent message).confidence = 3/10
      ∧ (_create_fallback_intent message).needsClarification = true
      ∧ ∃ q, (_create_fallback_intent message).clarifyingQuestion = some q ∧ q ≠ "")
    ∧ (analyze loads message resp = _create_fallback_intent message
       ∨ ∃ txt data, resp = Except.ok txt
           ∧ loads (parseMunge txt) = some (Json.obj data)
           ∧ parseFields data = some (analyze loads message resp)
           ∧ some (analyze loads message resp).confidence
               = pyFloat ((jget data "confidence").getD (Json.num (mkRat 1 2)))) := by
  refine ⟨⟨rfl, by rw [_create_fallback_intent, Rat.mkRat_eq_divInt, Rat.divInt_eq_div]; norm_num,
           rfl, _, rfl, by decide⟩, ?_⟩
  cases resp with
  | error e => exact Or.inl rfl
  | ok txt =>
    cases hload : loads (parseMunge txt) with
    | none => exact Or.inl (by simp [analyze, _parse_response, hload, _create_fallback_intent])
    | some j =>
      cases j with
      | obj data =>
        cases hpf : parseFields data with
        | none =>
          exact Or.inl (by simp [analyze, _parse_response, hload, hpf, _create_fallback_intent])
        | some ia =>
          refine Or.inr ⟨txt, data, rfl, hload, ?_, ?_⟩
          · simp [analyze, _parse_response, hload, hpf]
          · have hconf := (parseFields_inv data ia hpf).1
            have hred : analyze loads message (Except.ok txt) = ia := by
              simp [analyze, _parse_response, hload, hpf]
            rw [hred]
            exact hconf.symm
      | null => exact Or.inl (by simp [analyze, _parse_response, hload, _create_fallback_intent])
      | bool b => exact Or.inl (by simp [analyze, _parse_response, hload, _create_fallback_intent])
      | num q => exact Or.inl (by simp [analyze, _parse_response, hload, _create_fallback_intent])
      | str t => exact Or.inl (by simp [analyze, _parse_response, hload, _create_fallback_intent])
      | arr xs => exact Or.inl (by simp [analyze, _parse_response, hload, _create_fallback_intent])

/-- C9 counterexample: a provider response whose JSON sets
needsClarification without supplying a clarifyingQuestion produces an
IntentAnalysis violating the claimed invariant on the deep-stage
success path. -/
theorem c9_counterexample :
    (_parse_response c9Loads c9Text).needsClarification = true
      ∧ (_parse_response c9Loads c9Text).clarifyingQuestion = none :=
  ⟨rfl, rfl⟩

/-- C9 amended: the invariant needsClarification implies a present
clarifyingQuestion holds for every pattern-stage result (which never
asks for clarification) and for the deep-stage fallback; on the
deep-stage success path it holds only when the provider JSON supplies a
non-null clarifyingQuestion — the parser does not enforce it. -/
theorem c9_clarification_invariant_amended :
    (∀ (msg : String) (ctx : PipelineContext) (r : IntentAnalysis),
        classify_with_patterns msg ctx = some r → r.needsClarification = false)
    ∧ (∀ msg : String, (_create_fallback_intent msg).needsClarification = true
        ∧ (_create_fallback_intent msg).clarifyingQuestion.isSome = true)
    ∧ (∀ (data : List (String × Json)) (ia : IntentAnalysis),
        parseFields data = some ia → ia.needsClarification = true →
        (jget data "clarifyingQuestion").getD Json.null ≠ Json.null →
        ia.clarifyingQuestion.isSome = true) := by
  refine ⟨?_, fun msg => ⟨rfl, rfl⟩, ?_⟩
  · intro msg ctx r h
    simp only [classify_with_patterns] at h
    split_ifs at h
    all_goals injection h with h
    all_goals subst h
    all_goals rfl
  · intro data ia hpf _ hcq
    have h := (parseFields_inv data ia hpf).2.2
    cases hj : (jget data "clarifyingQuestion").getD Json.null with
    | null => exact absurd hj hcq
    | str q => rw [hj] at h; injection h with h; rw [← h]; rfl
    | bool b => rw [hj] at h; simp [asOptStr] at h
    | num n => rw [hj] at h; simp [asOptStr] at h
    | arr xs => rw [hj] at h; simp [asOptStr] at h
    | obj kvs => rw [hj] at h; simp [asOptStr] at h

/-- C9 witness: the pattern stage on a concrete input never asks for
clarification, and a success-path response that does supply a question
satisfies the invariant. -/
theorem c9_clarification_invariant_amended_witness :
    ({ intent := "delete_node", confidence := mkRat 9 10,
       reasoning := "User wants to delete/remove a canvas node",
       suggestedAction := "Identify which node to delete and confirm with user",
       requiresContext := false, suggestedModel := "orchestrator",
       usedLLM := false } : IntentAnalysis).needsClarification = false
    ∧ ({ intent := "general_chat", confidence := mkRat 1 2,
         reasoning := "Deep analysis completed", suggestedAction := "Process the request",
         requiresContext := true, suggestedModel := "orchestrator",
         needsClarification := true, clarifyingQuestion := some "Which section?",
         extractedEntities := [], usedLLM := true } : IntentAnalysis).clarifyingQuestion.isSome
        = true :=
  ⟨c9_clarification_invariant_amended.1 "Delete this node" emptyCtx _ rfl,
   c9_clarification_invariant_amended.2.2
     [("needsClarification", Json.bool true), ("clarifyingQuestion", Json.str "Which section?")]
     _ rfl rfl (fun h => Json.noConfusion h)⟩

/-- C4 witness: with a selected segment and no navigation match,
"Write this chapter" resolves to write_content; in the empty context
"Delete this node" resolves to an intent other than write_content. -/
theorem c4_write_content_gating_witness :
    (classify_with_patterns "Write this chapter" segCtx).map (fun r => r.intent)
        = some "write_content"
      ∧ ("delete_node" : String) ≠ "write_content" :=
  ⟨c4_write_content_gating.1 "Write this chapter" segCtx rfl (fun _ => rfl) rfl,
   c4_write_content_gating.2 "Delete this node" emptyCtx
     { intent := "delete_node", confidence := mkRat 9 10,
       reasoning := "User wants to delete/remove a canvas node",
       suggestedAction := "Identify which node to delete and confirm with user",
       requiresContext := false, suggestedModel := "orchestrator", usedLLM := false }
     rfl rfl⟩

end Publo
